import Mathlib

/-!
Shallow embedding of `src/Answers/Monitoring-healthcheck.js` (the
health-monitoring probe): `checkHealth`, `sendAlert`, the result recorder
and `runHealthCheck`, together with the process exit-code decision.

Network and filesystem behaviour is abstracted into explicit outcome
values handed to the embedded functions: the network outcome of a probe is a
`ProbeOutcome`, the behaviour of the alert sink is a `SinkOutcome`, and the
state of the day partition is a `PersistOutcome`.  An exception that escapes
to the caller (an uncaught throw, or a rejected promise reaching the
top-level catch) is modelled as `Except.error`.
-/

namespace HealthCheck

/-- A parsed JSON liveness body.  The script only ever reads the
`uptime` and `environment` fields of the parsed value (lines 127-128),
so the parsed document is modelled by those two optional fields. -/
structure JsonVal where
  uptime : Option Nat
  environment : Option String
deriving DecidableEq, Repr

/-- The raw body of an HTTP response, as seen by the `data` accumulator
of `checkHealth` (lines 37-44): the empty string (falsy, so never
parsed), a string that `JSON.parse` accepts (carrying its parse), or a
string on which `JSON.parse` throws. -/
inductive Body where
  | empty : Body
  | wellFormed (v : JsonVal) : Body
  | malformed (raw : String) : Body
deriving DecidableEq, Repr

/-- The network-level outcome of the single GET request issued by
`checkHealth`: a response with a status code and a body, a request
`error` event (DNS failure, connection refused, TLS error, ...) carrying
the message of the error, or the 10-second timeout firing. -/
inductive ProbeOutcome where
  | success (statusCode : Nat) (body : Body) : ProbeOutcome
  | connError (message : String) : ProbeOutcome
  | timeout : ProbeOutcome
deriving DecidableEq, Repr

/-- The object `checkHealth` resolves with (lines 40-45, 50-55, 60-65). -/
structure ProbeResult where
  status : Nat
  responseTime : Nat
  healthy : Bool
  data : Option JsonVal
  error : Option String
deriving DecidableEq, Repr

/-- The hard-coded timeout passed to `req.setTimeout(10000, ...)` on
line 58.  `checkHealth` takes no timeout argument: this constant is the
deadline for every target. -/
def checkHealthTimeoutMs : Nat := 10000

/-- Embedding of `checkHealth(url)` (lines 29-68).  The wall-clock time
`Date.now() - startTime` observed on response / error is the `elapsedMs`
argument.  On a response, `data ? JSON.parse(data) : null` parses the
accumulated body only when it is non-empty; a body that `JSON.parse`
rejects makes the parse throw inside the end-of-response callback, where
nothing catches it, so the promise never resolves and the exception
escapes - modelled as `Except.error`.  The `error` event and the timeout
callback resolve with status 0; the timeout branch hard-codes
`responseTime: 10000`. -/
def checkHealth (outcome : ProbeOutcome) (elapsedMs : Nat) : Except String ProbeResult :=
  match outcome with
  | .success code body =>
    match body with
    | .empty =>
      .ok { status := code, responseTime := elapsedMs, healthy := code == 200,
            data := none, error := none }
    | .wellFormed v =>
      .ok { status := code, responseTime := elapsedMs, healthy := code == 200,
            data := some v, error := none }
    | .malformed raw =>
      .error ("Unexpected token in JSON: " ++ raw)
  | .connError message =>
    .ok { status := 0, responseTime := elapsedMs, healthy := false,
          data := none, error := some message }
  | .timeout =>
    .ok { status := 0, responseTime := checkHealthTimeoutMs, healthy := false,
          data := none, error := some "Timeout" }

/-- The `CONFIG` object (lines 8-18): URLs with environment-variable
overrides, the health endpoint path, and optional alert settings.  No
timeout value appears anywhere in it. -/
structure Config where
  backendUrl : String
  backendEndpoint : String
  frontendUrl : String
  slack_webhook : Option String
  email : Option String
deriving DecidableEq, Repr

/-- Construction of `CONFIG` from the process environment (lines 8-18):
each field defaults when its environment variable is unset. -/
def CONFIG (backendUrlEnv frontendUrlEnv slackWebhookEnv alertEmailEnv : Option String) :
    Config :=
  { backendUrl := backendUrlEnv.getD "http://localhost:5000"
    backendEndpoint := "/health"
    frontendUrl := frontendUrlEnv.getD "http://localhost:3000"
    slack_webhook := slackWebhookEnv
    email := alertEmailEnv }

/-- The URL probed for the backend (line 118):
`` `${CONFIG.backend.url}${CONFIG.backend.endpoint}` ``. -/
def backendProbeUrl (c : Config) : String := c.backendUrl ++ c.backendEndpoint

/-- The behaviour of the sink when `sendAlert` posts to the webhook: either a
response arrives (with some status code - the script never reads it) or
the request emits an `error` event. -/
inductive SinkOutcome where
  | response (statusCode : Nat) : SinkOutcome
  | netError (message : String) : SinkOutcome
deriving DecidableEq, Repr

/-- What one `sendAlert` invocation did: the `ALERT:` console line it
always prints (line 72), whether it attempted a webhook POST, and the
lines it wrote to standard error (line 99). -/
structure AlertResult where
  alertLine : String
  webhookAttempted : Bool
  stderrLogs : List String
deriving DecidableEq, Repr

/-- Embedding of `sendAlert(message)` (lines 71-102).  Without a
configured webhook it only logs.  With one, the POST promise resolves as
soon as a response object arrives - `https.request(url, options, resolve)`
never inspects the status code of the response - so only a request `error`
event reaches the `catch`, which logs to standard error.  `sendAlert`
itself never throws to its caller. -/
def sendAlert (slack_webhook : Option String) (message : String) (sink : SinkOutcome) :
    AlertResult :=
  match slack_webhook with
  | none =>
    { alertLine := "ALERT: " ++ message, webhookAttempted := false, stderrLogs := [] }
  | some _ =>
    match sink with
    | .response _ =>
      { alertLine := "ALERT: " ++ message, webhookAttempted := true, stderrLogs := [] }
    | .netError m =>
      { alertLine := "ALERT: " ++ message, webhookAttempted := true,
        stderrLogs := ["Failed to send Slack alert: " ++ m] }

/-- The `results` object of one sweep (lines 111-114, 120, 139): a
timestamp and the two entries of `results.checks`. -/
structure RunReport where
  timestamp : String
  backend : ProbeResult
  frontend : ProbeResult
deriving DecidableEq, Repr

/-- `Object.values(results.checks)` - the two check records in insertion
order (backend first, line 120, then frontend, line 139). -/
def RunReport.checksList (r : RunReport) : List ProbeResult := [r.backend, r.frontend]

/-- `checks.every(check => check.healthy)` applied to a list of check
records (line 152). -/
def everyHealthy (checks : List ProbeResult) : Bool :=
  checks.all (fun check => check.healthy)

/-- `const allHealthy = Object.values(results.checks).every(check => check.healthy)`
(line 152). -/
def allHealthy (r : RunReport) : Bool := everyHealthy r.checksList

/-- `logs = JSON.parse(fs.readFileSync(logFile))` guarded by
`fs.existsSync(logFile)` (lines 170-173): `none` when the daily partition
does not exist yet, in which case `logs` stays `[]`. -/
def readPartition (store : Option (List RunReport)) : List RunReport :=
  store.getD []

/-- One read-modify-write of the recorder (lines 170-175): read the
partition, `logs.push(results)`, write the whole sequence back. -/
def recordRun (store : Option (List RunReport)) (report : RunReport) : List RunReport :=
  readPartition store ++ [report]

/-- The partition contents after a sequence of recorder read-modify-write
cycles starting from `store`, each cycle reading back what the previous
one wrote. -/
def recordMany (store : Option (List RunReport)) (reports : List RunReport) :
    List RunReport :=
  reports.foldl (fun cur r => recordRun (some cur) r) (readPartition store)

/-- The filesystem behaviour during the recorder read-modify-write
(lines 162-175): the read succeeds (yielding the previous partition
contents, `none` when the file does not exist) and the write succeeds, or
reading/parsing the partition throws, or writing it back throws.  None of
these operations sit inside a try/catch in `runHealthCheck`, so a throw
propagates out of it. -/
inductive PersistOutcome where
  | ok (prev : Option (List RunReport)) : PersistOutcome
  | readFailure (message : String) : PersistOutcome
  | writeFailure (message : String) : PersistOutcome
deriving DecidableEq, Repr

/-- The previous partition contents a persistence outcome would let the
recorder read (`none` when the read does not complete). -/
def persistPrev : PersistOutcome → Option (List RunReport)
  | .ok prev => prev
  | .readFailure _ => none
  | .writeFailure _ => none

/-- The environment one invocation of `runHealthCheck` executes in: the
timestamp taken at the start, the network outcome and observed elapsed
time of each of the two probes, the `CONFIG.slack_webhook` value, the
sink behaviour for each potential alert POST, and the filesystem
behaviour for the log partition. -/
structure RunInput where
  timestamp : String
  backendOutcome : ProbeOutcome
  backendElapsedMs : Nat
  frontendOutcome : ProbeOutcome
  frontendElapsedMs : Nat
  slack_webhook : Option String
  backendSink : SinkOutcome
  frontendSink : SinkOutcome
  persist : PersistOutcome
deriving DecidableEq, Repr

/-- What one completed `runHealthCheck` invocation produced: the
`results` object, the returned `allHealthy` boolean, the `sendAlert`
invocations made for each target, and the sequence written to the daily
partition. -/
structure RunOutput where
  report : RunReport
  overall : Bool
  backendAlerts : List AlertResult
  frontendAlerts : List AlertResult
  savedLog : List RunReport
deriving DecidableEq, Repr

/-- Embedding of `runHealthCheck()` (lines 105-178).  Probes the backend,
alerting via `sendAlert` when it is unhealthy (line 133, with the message
of line 133 - `${backendHealth.error}` renders `undefined` when the field
is absent); probes the frontend likewise (line 148); computes `allHealthy`
(line 152); then performs the recorder read-modify-write (lines
162-175) and returns `allHealthy`.  An exception anywhere (an unguarded
`JSON.parse` throw inside `checkHealth`, or a persistence read/write
throw) aborts the sweep: nothing in `runHealthCheck` catches it. -/
def runHealthCheck (inp : RunInput) : Except String RunOutput :=
  match checkHealth inp.backendOutcome inp.backendElapsedMs with
  | .error m => .error m
  | .ok backendHealth =>
    let backendAlerts :=
      if backendHealth.healthy then []
      else [sendAlert inp.slack_webhook
              ("Backend is down! Error: " ++ backendHealth.error.getD "undefined")
              inp.backendSink]
    match checkHealth inp.frontendOutcome inp.frontendElapsedMs with
    | .error m => .error m
    | .ok frontendHealth =>
      let frontendAlerts :=
        if frontendHealth.healthy then []
        else [sendAlert inp.slack_webhook
                ("Frontend is down! Error: " ++ frontendHealth.error.getD "undefined")
                inp.frontendSink]
      let report : RunReport :=
        { timestamp := inp.timestamp, backend := backendHealth, frontend := frontendHealth }
      match inp.persist with
      | .readFailure m => .error m
      | .writeFailure m => .error m
      | .ok prev =>
        .ok { report := report
              overall := allHealthy report
              backendAlerts := backendAlerts
              frontendAlerts := frontendAlerts
              savedLog := recordRun prev report }

/-- The process exit-code decision (lines 181-188):
`runHealthCheck().then(healthy => process.exit(healthy ? 0 : 1))` and the
top-level `.catch` / uncaught-exception path, which terminates the
process with exit code 1. -/
def exitCode (run : Except String RunOutput) : Nat :=
  match run with
  | .ok o => if o.overall then 0 else 1
  | .error _ => 1

/-- The data of one completed run that the alert sink cannot influence:
the report, the returned overall boolean, and the persisted sequence. -/
def runCore (o : RunOutput) : RunReport × Bool × List RunReport :=
  (o.report, o.overall, o.savedLog)

/-- The kind of a monitored target in the data model of the specification. -/
inductive TargetKind where
  | reachability : TargetKind
  | livenessJson : TargetKind
deriving DecidableEq, Repr

/-- Modelled from the spec: the Target record of the spec,
`{ name, url, kind (reachability | liveness-json), timeout }` with a
per-target `timeout` configuration knob.  No such record exists in the
source: `CONFIG` (lines 8-18) carries no timeout field. -/
structure SpecTarget where
  name : String
  url : String
  kind : TargetKind
  timeout : Nat
deriving DecidableEq, Repr

/-- The deadline the code enforces when probing a target: `checkHealth`
receives only the URL, and line 58 is `req.setTimeout(10000, ...)` for
every call, so the deadline is the fixed constant, whatever the target. -/
def probeDeadlineMs (_t : SpecTarget) : Nat := checkHealthTimeoutMs

/-- Modelled from the spec: the deadline the spec says the Prober
enforces for a target - the configured timeout of that target itself. -/
def specProbeDeadlineMs (t : SpecTarget) : Nat := t.timeout

/-- A backend `SpecTarget` configured with a 5-second timeout. -/
def backendTarget5s : SpecTarget :=
  { name := "backend", url := "http://localhost:5000/health",
    kind := .livenessJson, timeout := 5000 }

/-- A frontend `SpecTarget` configured with a 20-second timeout. -/
def frontendTarget20s : SpecTarget :=
  { name := "frontend", url := "http://localhost:3000",
    kind := .reachability, timeout := 20000 }

/-- A run in which both targets answer 200 with an empty body and the
daily partition does not exist yet. -/
def healthyRunInput : RunInput :=
  { timestamp := "2026-10-11T00:00:00.000Z"
    backendOutcome := .success 200 .empty
    backendElapsedMs := 12
    frontendOutcome := .success 200 .empty
    frontendElapsedMs := 8
    slack_webhook := none
    backendSink := .response 200
    frontendSink := .response 200
    persist := .ok none }

/-- The output `runHealthCheck` produces on `healthyRunInput`. -/
def healthyRunOutput : RunOutput :=
  { report :=
      { timestamp := "2026-10-11T00:00:00.000Z"
        backend := { status := 200, responseTime := 12, healthy := true,
                     data := none, error := none }
        frontend := { status := 200, responseTime := 8, healthy := true,
                      data := none, error := none } }
    overall := true
    backendAlerts := []
    frontendAlerts := []
    savedLog :=
      [{ timestamp := "2026-10-11T00:00:00.000Z"
         backend := { status := 200, responseTime := 12, healthy := true,
                      data := none, error := none }
         frontend := { status := 200, responseTime := 8, healthy := true,
                       data := none, error := none } }] }

/-- The timeout scenario of the spec: the backend probe hits the timeout while
the frontend answers 200 in 50 ms; a webhook is configured and the sink
accepts the POST; the daily partition does not exist yet. -/
def timeoutScenarioInput : RunInput :=
  { timestamp := "2026-10-11T01:00:00.000Z"
    backendOutcome := .timeout
    backendElapsedMs := 10000
    frontendOutcome := .success 200 .empty
    frontendElapsedMs := 50
    slack_webhook := some "https://hooks.slack.test/services/T0/B0/X"
    backendSink := .response 200
    frontendSink := .response 200
    persist := .ok none }

/-- A run in which both probes succeed but reading the daily partition
throws. -/
def persistFailureRunInput : RunInput :=
  { timestamp := "2026-10-11T02:00:00.000Z"
    backendOutcome := .success 200 .empty
    backendElapsedMs := 10
    frontendOutcome := .success 200 .empty
    frontendElapsedMs := 10
    slack_webhook := none
    backendSink := .response 200
    frontendSink := .response 200
    persist := .readFailure "EACCES: permission denied" }

/-- A run in which the backend connection is refused and persistence
works, so the unhealthy-target path decides the exit code. -/
def unhealthyRunInput : RunInput :=
  { timestamp := "2026-10-11T03:00:00.000Z"
    backendOutcome := .connError "connect ECONNREFUSED 127.0.0.1:5000"
    backendElapsedMs := 3
    frontendOutcome := .success 200 .empty
    frontendElapsedMs := 9
    slack_webhook := none
    backendSink := .response 200
    frontendSink := .response 200
    persist := .ok none }

/-- A run in which the backend answers 200 with a body `JSON.parse`
rejects - the sweep dies inside `checkHealth`. -/
def malformedBodyRunInput : RunInput :=
  { timestamp := "2026-10-11T04:00:00.000Z"
    backendOutcome := .success 200 (.malformed "<html></html>")
    backendElapsedMs := 15
    frontendOutcome := .success 200 .empty
    frontendElapsedMs := 9
    slack_webhook := none
    backendSink := .response 200
    frontendSink := .response 200
    persist := .ok none }

/-- A run whose partition already holds one earlier report, for the
recorder append law. -/
def appendRunInput : RunInput :=
  { timestamp := "2026-10-11T05:00:00.000Z"
    backendOutcome := .success 200 (.wellFormed { uptime := some 3600, environment := some "production" })
    backendElapsedMs := 20
    frontendOutcome := .success 200 .empty
    frontendElapsedMs := 11
    slack_webhook := none
    backendSink := .response 200
    frontendSink := .response 200
    persist := .ok (some [healthyRunOutput.report]) }

/-- Helper: folding the recorder read-modify-write over a list of reports
appends that list to the initial contents. -/
lemma foldl_recordRun_eq_append (reports : List RunReport) :
    ∀ init : List RunReport,
      reports.foldl (fun cur r => recordRun (some cur) r) init = init ++ reports := by
  induction reports with
  | nil => intro init; simp
  | cons r rs ih =>
    intro init
    simp only [List.foldl_cons]
    rw [ih]
    simp [recordRun, readPartition]

/-- C1 counterexample: a 200 response whose body `JSON.parse` rejects
makes `checkHealth` raise instead of resolving with a status-0 result. -/
theorem checkHealth_malformed_body_raises :
    checkHealth (ProbeOutcome.success 200 (Body.malformed "<html></html>")) 5 =
      Except.error ("Unexpected token in JSON: " ++ "<html></html>") := rfl

/-- C1 (amended): request-level failures (DNS, connection refused, TLS -
the `error` event - and the explicit timeout) always resolve with a
`ProbeResult` of status 0 whose error detail comes from the underlying
failure; but a malformed response body raises an uncaught JSON parse
exception rather than resolving. -/
theorem checkHealth_network_failures_resolve_status_zero :
    (∀ (message : String) (elapsedMs : Nat),
        checkHealth (ProbeOutcome.connError message) elapsedMs =
          Except.ok { status := 0, responseTime := elapsedMs, healthy := false,
                      data := none, error := some message }) ∧
    (∀ elapsedMs : Nat,
        checkHealth ProbeOutcome.timeout elapsedMs =
          Except.ok { status := 0, responseTime := checkHealthTimeoutMs, healthy := false,
                      data := none, error := some "Timeout" }) ∧
    (∀ (raw : String) (elapsedMs : Nat),
        checkHealth (ProbeOutcome.success 200 (Body.malformed raw)) elapsedMs =
          Except.error ("Unexpected token in JSON: " ++ raw)) :=
  ⟨fun _ _ => rfl, fun _ => rfl, fun _ _ => rfl⟩

/-- C2 counterexample: a target answering 200 with a malformed liveness
body is not marked unhealthy with a payload-failure detail - the parse
throws and no `ProbeResult` is produced at all. -/
theorem checkHealth_malformed_200_not_marked_unhealthy :
    checkHealth (ProbeOutcome.success 200 (Body.malformed "not-json")) 7 =
      Except.error ("Unexpected token in JSON: " ++ "not-json") := rfl

/-- C2 (amended): the healthy flag is `status == 200` for every target
kind alike - the body is never consulted for it; a well-formed or empty
body on any status yields that flag, and a malformed body raises an
uncaught parse exception instead of producing an unhealthy record. -/
theorem checkHealth_healthy_iff_status_200 :
    (∀ (code : Nat) (v : JsonVal) (elapsedMs : Nat),
        checkHealth (ProbeOutcome.success code (Body.wellFormed v)) elapsedMs =
          Except.ok { status := code, responseTime := elapsedMs, healthy := code == 200,
                      data := some v, error := none }) ∧
    (∀ (code elapsedMs : Nat),
        checkHealth (ProbeOutcome.success code Body.empty) elapsedMs =
          Except.ok { status := code, responseTime := elapsedMs, healthy := code == 200,
                      data := none, error := none }) ∧
    (∀ code : Nat, (code == 200) = true ↔ code = 200) ∧
    (∀ (code : Nat) (raw : String) (elapsedMs : Nat),
        checkHealth (ProbeOutcome.success code (Body.malformed raw)) elapsedMs =
          Except.error ("Unexpected token in JSON: " ++ raw)) :=
  ⟨fun _ _ _ => rfl, fun _ _ => rfl, fun _ => beq_iff_eq, fun _ _ _ => rfl⟩

/-- C9: a failed connection yields status 0, healthy false and the
(non-empty) message of the underlying error as the detail; a probe that
hits the timeout reports an elapsed time of at most the timeout value. -/
theorem connection_failure_and_timeout_probe_results :
    (∀ (message : String) (elapsedMs : Nat), message ≠ "" →
        checkHealth (ProbeOutcome.connError message) elapsedMs =
            Except.ok { status := 0, responseTime := elapsedMs, healthy := false,
                        data := none, error := some message } ∧
          (some message : Option String) ≠ some "") ∧
    (∀ (elapsedMs : Nat) (r : ProbeResult),
        checkHealth ProbeOutcome.timeout elapsedMs = Except.ok r →
          r.responseTime ≤ checkHealthTimeoutMs) := by
  constructor
  · intro message elapsedMs h
    exact ⟨rfl, by simpa using h⟩
  · intro elapsedMs r h
    simp only [checkHealth] at h
    injection h with h
    subst h
    exact Nat.le_refl _

/-- C9 witness: the theorem applied to a concrete refused connection and
to the concrete timeout result. -/
theorem connection_failure_probe_witness :
    (checkHealth (ProbeOutcome.connError "connect ECONNREFUSED 127.0.0.1:5000") 3 =
        Except.ok { status := 0, responseTime := 3, healthy := false,
                    data := none, error := some "connect ECONNREFUSED 127.0.0.1:5000" } ∧
      (some "connect ECONNREFUSED 127.0.0.1:5000" : Option String) ≠ some "") ∧
    ({ status := 0, responseTime := checkHealthTimeoutMs, healthy := false,
       data := none, error := some "Timeout" } : ProbeResult).responseTime ≤
      checkHealthTimeoutMs :=
  ⟨connection_failure_and_timeout_probe_results.1 _ 3 (by simp),
   connection_failure_and_timeout_probe_results.2 10000 _ rfl⟩

/-- C10: a 200 response with an empty body resolves healthy with `data`
null - the empty body is never parsed and is not classified malformed. -/
theorem empty_body_200_healthy_null_data :
    ∀ elapsedMs : Nat,
      checkHealth (ProbeOutcome.success 200 Body.empty) elapsedMs =
        Except.ok { status := 200, responseTime := elapsedMs, healthy := true,
                    data := none, error := none } :=
  fun _ => rfl

/-- C3: `every(check => check.healthy)` is true iff every record is
healthy (over arbitrary record lists), and the overall flag a sweep
returns is exactly `allHealthy` of its report. -/
theorem overall_healthy_iff_every_record_healthy :
    (∀ checks : List ProbeResult,
        everyHealthy checks = true ↔ ∀ c ∈ checks, c.healthy = true) ∧
    (∀ inp : RunInput,
        (runHealthCheck inp).map (fun o => o.overall) =
          (runHealthCheck inp).map (fun o => allHealthy o.report)) := by
  constructor
  · intro checks
    simp [everyHealthy, List.all_eq_true]
  · intro inp
    cases hb : checkHealth inp.backendOutcome inp.backendElapsedMs with
    | error m => simp [runHealthCheck, hb, Except.map]
    | ok bh =>
      cases hf : checkHealth inp.frontendOutcome inp.frontendElapsedMs with
      | error m => simp [runHealthCheck, hb, hf, Except.map]
      | ok fh =>
        cases hp : inp.persist with
        | ok prev => simp [runHealthCheck, hb, hf, hp, Except.map]
        | readFailure m => simp [runHealthCheck, hb, hf, hp, Except.map]
        | writeFailure m => simp [runHealthCheck, hb, hf, hp, Except.map]

/-- C3 witness: the iff applied to a concrete single healthy record. -/
theorem overall_healthy_iff_witness :
    everyHealthy
      [{ status := 200, responseTime := 5, healthy := true, data := none, error := none }] =
      true :=
  (overall_healthy_iff_every_record_healthy.1 _).mpr (by decide)

/-- C4: one recorder cycle appends exactly one report to the previous
partition contents (the empty sequence when the partition does not yet
exist); N cycles starting from a nonexistent partition leave exactly the
N reports; re-reading then re-writing a partition leaves it unchanged;
and a completed sweep writes back exactly the read contents plus its own
report. -/
theorem recorder_append_law :
    (∀ (store : Option (List RunReport)) (report : RunReport),
        (recordRun store report).length = (readPartition store).length + 1) ∧
    (∀ reports : List RunReport, recordMany none reports = reports) ∧
    (∀ l : List RunReport, readPartition (some l) = l) ∧
    (∀ inp : RunInput,
        (runHealthCheck inp).map (fun o => o.savedLog) =
          (runHealthCheck inp).map (fun o => recordRun (persistPrev inp.persist) o.report)) := by
  refine ⟨?_, ?_, ?_, ?_⟩
  · intro store report
    simp [recordRun]
  · intro reports
    simp [recordMany, foldl_recordRun_eq_append, readPartition]
  · intro l
    rfl
  · intro inp
    cases hb : checkHealth inp.backendOutcome inp.backendElapsedMs with
    | error m => simp [runHealthCheck, hb, Except.map]
    | ok bh =>
      cases hf : checkHealth inp.frontendOutcome inp.frontendElapsedMs with
      | error m => simp [runHealthCheck, hb, hf, Except.map]
      | ok fh =>
        cases hp : inp.persist with
        | ok prev => simp [runHealthCheck, hb, hf, hp, persistPrev, Except.map]
        | readFailure m => simp [runHealthCheck, hb, hf, hp, Except.map]
        | writeFailure m => simp [runHealthCheck, hb, hf, hp, Except.map]

/-- C5: in the timeout scenario (backend probe times out, frontend
answers 200 in 50 ms) the sweep reports overall false, makes exactly one
alert dispatch for the backend and none for the frontend, and the
process exits 1; in general a completed run exits 0 iff its overall flag
is true, and an aborted run exits 1. -/
theorem timeout_scenario_and_exit_codes :
    ((runHealthCheck timeoutScenarioInput).map
        (fun o => (o.overall, o.backendAlerts.length, o.frontendAlerts.length)) =
        Except.ok (false, 1, 0) ∧
      exitCode (runHealthCheck timeoutScenarioInput) = 1) ∧
    (∀ (inp : RunInput) (o : RunOutput),
        runHealthCheck inp = Except.ok o →
          exitCode (runHealthCheck inp) = if o.overall then 0 else 1) ∧
    (∀ (inp : RunInput) (m : String),
        runHealthCheck inp = Except.error m → exitCode (runHealthCheck inp) = 1) := by
  refine ⟨⟨rfl, rfl⟩, ?_, ?_⟩
  · intro inp o h
    rw [h]
    rfl
  · intro inp m h
    rw [h]
    rfl

/-- C5 witness: the exit-code rule applied to the concrete all-healthy
run. -/
theorem timeout_scenario_exit_code_witness :
    exitCode (runHealthCheck healthyRunInput) =
      if healthyRunOutput.overall then 0 else 1 :=
  timeout_scenario_and_exit_codes.2.1 healthyRunInput healthyRunOutput rfl

/-- C6 counterexample: a configured sink answering HTTP 500 produces no
standard-error log at all - the non-2xx response is never detected. -/
theorem sendAlert_non2xx_not_logged :
    sendAlert (some "https://hooks.slack.test/services/T0/B0/X")
        "Backend is down! Error: Timeout" (SinkOutcome.response 500) =
      { alertLine := "ALERT: " ++ "Backend is down! Error: Timeout",
        webhookAttempted := true, stderrLogs := [] } := rfl

/-- C6 (amended): without a configured webhook, dispatch is a no-op and
not an error; a network delivery failure is caught and logged to
standard error; a non-2xx sink response is not detected - the dispatch
completes without logging anything; and in every case the sink behaviour
changes neither the report, the overall outcome, nor the persisted log
of the run. -/
theorem sendAlert_delivery_failure_handling :
    (∀ (message : String) (sink : SinkOutcome),
        sendAlert none message sink =
          { alertLine := "ALERT: " ++ message, webhookAttempted := false,
            stderrLogs := [] }) ∧
    (∀ (webhookUrl message m : String),
        sendAlert (some webhookUrl) message (SinkOutcome.netError m) =
          { alertLine := "ALERT: " ++ message, webhookAttempted := true,
            stderrLogs := ["Failed to send Slack alert: " ++ m] }) ∧
    (∀ (webhookUrl message : String) (code : Nat),
        sendAlert (some webhookUrl) message (SinkOutcome.response code) =
          { alertLine := "ALERT: " ++ message, webhookAttempted := true,
            stderrLogs := [] }) ∧
    (∀ (inp : RunInput) (s1 s2 : SinkOutcome),
        (runHealthCheck { inp with backendSink := s1, frontendSink := s2 }).map runCore =
          (runHealthCheck inp).map runCore) := by
  refine ⟨fun _ _ => rfl, fun _ _ _ => rfl, fun _ _ _ => rfl, ?_⟩
  intro inp s1 s2
  obtain ⟨ts, bo, be, fo, fe, sw, bs, fs, p⟩ := inp
  cases hb : checkHealth bo be with
  | error m => simp [runHealthCheck, hb, Except.map]
  | ok bh =>
    cases hf : checkHealth fo fe with
    | error m => simp [runHealthCheck, hb, hf, Except.map]
    | ok fh =>
      cases p <;> simp [runHealthCheck, hb, hf, runCore, Except.map]

/-- Helper: when the persistence outcome is not a successful
read-and-write, the sweep never returns a completed output. -/
lemma runHealthCheck_not_ok_of_persist_error (inp : RunInput)
    (h : ∀ prev, inp.persist ≠ PersistOutcome.ok prev) :
    ∀ o : RunOutput, runHealthCheck inp ≠ Except.ok o := by
  intro o hok
  cases hb : checkHealth inp.backendOutcome inp.backendElapsedMs with
  | error m => simp [runHealthCheck, hb] at hok
  | ok bh =>
    cases hf : checkHealth inp.frontendOutcome inp.frontendElapsedMs with
    | error m => simp [runHealthCheck, hb, hf] at hok
    | ok fh =>
      cases hp : inp.persist with
      | ok prev => exact h prev hp
      | readFailure m => simp [runHealthCheck, hb, hf, hp] at hok
      | writeFailure m => simp [runHealthCheck, hb, hf, hp] at hok

/-- Helper: a run that never completes exits with code 1. -/
lemma exitCode_eq_one_of_not_ok (run : Except String RunOutput)
    (h : ∀ o : RunOutput, run ≠ Except.ok o) : exitCode run = 1 := by
  cases run with
  | ok o => exact absurd rfl (h o)
  | error m => rfl

/-- C7 counterexample: a persistence read failure aborts the run with
exit code 1 - the very same exit code an unhealthy-target run produces,
so it is not surfaced distinctly; and a malformed response body also
aborts the sweep early, so persistence failures are not the only
early-abort failure. -/
theorem persistence_failure_exit_code_not_distinct :
    runHealthCheck persistFailureRunInput = Except.error "EACCES: permission denied" ∧
    exitCode (runHealthCheck persistFailureRunInput) = 1 ∧
    exitCode (runHealthCheck unhealthyRunInput) = 1 ∧
    runHealthCheck malformedBodyRunInput =
      Except.error ("Unexpected token in JSON: " ++ "<html></html>") :=
  ⟨rfl, rfl, rfl, rfl⟩

/-- C7 (amended): a persistence failure (read or write) is fatal for the
run - no completed output is returned and the process exits 1 - but that
exit code is the same one an unhealthy-target outcome produces, not a
distinct value. -/
theorem persistence_failure_fatal_same_exit_code :
    (∀ (inp : RunInput) (m : String), inp.persist = PersistOutcome.readFailure m →
        (∀ o : RunOutput, runHealthCheck inp ≠ Except.ok o) ∧
          exitCode (runHealthCheck inp) = 1) ∧
    (∀ (inp : RunInput) (m : String), inp.persist = PersistOutcome.writeFailure m →
        (∀ o : RunOutput, runHealthCheck inp ≠ Except.ok o) ∧
          exitCode (runHealthCheck inp) = 1) ∧
    exitCode (runHealthCheck unhealthyRunInput) = 1 := by
  refine ⟨?_, ?_, rfl⟩
  · intro inp m hp
    have hnot : ∀ o : RunOutput, runHealthCheck inp ≠ Except.ok o :=
      runHealthCheck_not_ok_of_persist_error inp (fun prev hc => by
        rw [hp] at hc
        exact PersistOutcome.noConfusion hc)
    exact ⟨hnot, exitCode_eq_one_of_not_ok _ hnot⟩
  · intro inp m hp
    have hnot : ∀ o : RunOutput, runHealthCheck inp ≠ Except.ok o :=
      runHealthCheck_not_ok_of_persist_error inp (fun prev hc => by
        rw [hp] at hc
        exact PersistOutcome.noConfusion hc)
    exact ⟨hnot, exitCode_eq_one_of_not_ok _ hnot⟩

/-- C7 witness: the theorem applied to the concrete run whose partition
read throws. -/
theorem persistence_failure_witness :
    exitCode (runHealthCheck persistFailureRunInput) = 1 :=
  (persistence_failure_fatal_same_exit_code.1 persistFailureRunInput
      "EACCES: permission denied" rfl).2

/-- C8 counterexample: for a target configured (per the spec) with a
5-second timeout, the code still enforces the fixed 10000 ms deadline,
and two targets with different configured timeouts get the same
deadline - changing the configured timeout changes nothing. -/
theorem probe_deadline_ignores_configured_timeout :
    probeDeadlineMs backendTarget5s = 10000 ∧
    specProbeDeadlineMs backendTarget5s = 5000 ∧
    probeDeadlineMs backendTarget5s ≠ specProbeDeadlineMs backendTarget5s ∧
    probeDeadlineMs backendTarget5s = probeDeadlineMs frontendTarget20s ∧
    backendTarget5s.timeout ≠ frontendTarget20s.timeout :=
  ⟨rfl, rfl, by decide, rfl, by decide⟩

/-- C8 (amended): the probe enforces one fixed 10000 ms deadline for
every target - `req.setTimeout(10000, ...)` - and no per-target timeout
exists: the deadline is the same constant whatever the configured
`SpecTarget`, and the timeout branch always reports that constant. -/
theorem probe_deadline_fixed_for_all_targets :
    (∀ t : SpecTarget, probeDeadlineMs t = checkHealthTimeoutMs) ∧
    (∀ elapsedMs : Nat,
        checkHealth ProbeOutcome.timeout elapsedMs =
          Except.ok { status := 0, responseTime := checkHealthTimeoutMs, healthy := false,
                      data := none, error := some "Timeout" }) :=
  ⟨fun _ => rfl, fun _ => rfl⟩

end HealthCheck
